import Mathlib

/-!
Shallow embedding of `src/frontend/src/hooks/useApi.ts` (StyleAgent):
the Operation Tracker (`useApi`), the Paginated Operation Tracker
(`usePaginatedApi`) and the Form Submission Tracker (`useFormApi`).

State updates are modelled by explicit state passing: a call to
`execute`/`submit` is a function from the prior state and the awaited
executor outcome to the final state, together with a record of which
callbacks were invoked (and with what argument) and of the value
returned or failure re-raised.  The synchronous transition performed
before awaiting the executor is exposed separately (`executeStart`,
`pExecuteStart`) so that mid-flight states can be reasoned about.
JS `null`/`undefined` fields become `Option`; JS truthiness of
`error.message || fallback` is translated faithfully (an absent message
or the empty string both fall back).
-/

namespace StyleAgent

/-- The fixed fallback string `'An unexpected error occurred'` used by all
three trackers when a failure carries no usable message. -/
def defaultErrorMessage : String := "An unexpected error occurred"

/-- Translation of `error.message || 'An unexpected error occurred'`:
under JS truthiness an absent `message` field and the empty string both
select the fallback. -/
def normalizeError (message : Option String) : String :=
  match message with
  | some m => if m = "" then defaultErrorMessage else m
  | none => defaultErrorMessage

/-- `ApiState<T>` from `useApi.ts`. -/
structure ApiState (T : Type) where
  data : Option T
  loading : Bool
  error : Option String
  deriving Repr, DecidableEq

/-- The initial state of `useApi`: `{data: null, loading: false, error: null}`. -/
def ApiState.initial (T : Type) : ApiState T := ⟨none, false, none⟩

/-- `UseApiOptions`: the two callbacks are modelled by presence flags
(their invocation is recorded in `ExecResult`), `resetOnCall` is the
optional boolean field tested by `options.resetOnCall !== false`. -/
structure UseApiOptions where
  onSuccess : Bool
  onError : Bool
  resetOnCall : Option Bool
  deriving Repr, DecidableEq

/-- The settled result of awaiting an executor: resolution with a value,
or rejection with an error object whose `message` field may be absent. -/
inductive Outcome (T : Type) where
  | ok (result : T)
  | err (message : Option String)
  deriving Repr, DecidableEq

/-- Observable result of a completed `execute` call: the final tracker
state, the argument each callback was invoked with (if invoked), and the
value returned to the caller or the original failure re-raised. -/
structure ExecResult (T : Type) where
  state : ApiState T
  successCallback : Option T
  errorCallback : Option String
  outcome : Outcome T
  deriving Repr, DecidableEq

/-- The synchronous transition `execute` performs before awaiting the
executor (`useApi.ts` lines 25–29): with `resetOnCall !== false` the whole
triple is reset with `loading:true`; otherwise only `loading`/`error`
change and `data` is preserved. -/
def executeStart {T : Type} (opts : UseApiOptions) (st : ApiState T) : ApiState T :=
  if opts.resetOnCall ≠ some false then
    ⟨none, true, none⟩
  else
    { st with loading := true, error := none }

/-- The transition `execute` performs once the executor settles
(`useApi.ts` lines 31–49).  Both branches call `setState` with a complete
object, so the final state does not depend on the mid-flight state. -/
def executeFinish {T : Type} (opts : UseApiOptions) (o : Outcome T) : ExecResult T :=
  match o with
  | .ok r =>
      { state := ⟨some r, false, none⟩
        successCallback := if opts.onSuccess then some r else none
        errorCallback := none
        outcome := .ok r }
  | .err msg =>
      { state := ⟨none, false, some (normalizeError msg)⟩
        successCallback := none
        errorCallback := if opts.onError then some (normalizeError msg) else none
        outcome := .err msg }

/-- A full `execute` call of `useApi`: the start transition followed, on
settlement of the executor, by the finish transition (which overwrites
every field of the mid-flight state). -/
def execute {T : Type} (opts : UseApiOptions) (st : ApiState T) (o : Outcome T) :
    ExecResult T :=
  let _mid := executeStart opts st
  executeFinish opts o

/-- `reset` of `useApi`: unconditionally restores the initial triple. -/
def reset {T : Type} (_st : ApiState T) : ApiState T := ApiState.initial T

/-- `PaginatedApiState<T>` from `useApi.ts`: the triple plus pagination
fields.  `data` has TS type `T[] | null`; the hook initialises it to `[]`. -/
structure PaginatedApiState (T : Type) where
  data : Option (List T)
  loading : Bool
  error : Option String
  page : Nat
  totalPages : Nat
  total : Nat
  hasMore : Bool
  deriving Repr, DecidableEq

/-- The initial state of `usePaginatedApi`. -/
def PaginatedApiState.initial (T : Type) : PaginatedApiState T :=
  ⟨some [], false, none, 1, 1, 0, false⟩

/-- The object resolved by a paginated executor: it may carry the items
under `data` or under `items` (either may be absent), plus counters. -/
structure PageResult (T : Type) where
  dataField : Option (List T)
  itemsField : Option (List T)
  total : Nat
  page : Nat
  pages : Nat
  deriving Repr, DecidableEq

/-- `result.data || result.items || []`: a present array (even empty) is
truthy in JS, so `data` wins over `items`, which wins over `[]`. -/
def PageResult.items {T : Type} (r : PageResult T) : List T :=
  r.dataField.getD (r.itemsField.getD [])

/-- Settled outcome of a paginated executor. -/
inductive POutcome (T : Type) where
  | ok (result : PageResult T)
  | err (message : Option String)
  deriving Repr, DecidableEq

/-- Observable result of a completed paginated `execute` call. -/
structure PExecResult (T : Type) where
  state : PaginatedApiState T
  successCallback : Option (PageResult T)
  errorCallback : Option String
  outcome : POutcome T
  deriving Repr, DecidableEq

/-- The synchronous transition of the paginated `execute` before awaiting
(`useApi.ts` line 97): `loading:true, error:null`, everything else kept. -/
def pExecuteStart {T : Type} (st : PaginatedApiState T) : PaginatedApiState T :=
  { st with loading := true, error := none }

/-- The transition of the paginated `execute` once the executor settles
(`useApi.ts` lines 100–131), applied to the mid-flight state `st1`.
On success `data` becomes `append ? prev.data ++ items : items` and the
counters come from the result; on failure only `loading`/`error` change. -/
def pExecuteFinish {T : Type} (opts : UseApiOptions) (st1 : PaginatedApiState T)
    (append : Bool) (o : POutcome T) : PExecResult T :=
  match o with
  | .ok result =>
      { state :=
          { data := some (if append then st1.data.getD [] ++ result.items else result.items)
            loading := false
            error := none
            page := result.page
            totalPages := result.pages
            total := result.total
            hasMore := decide (result.page < result.pages) }
        successCallback := if opts.onSuccess then some result else none
        errorCallback := none
        outcome := .ok result }
  | .err msg =>
      { state := { st1 with loading := false, error := some (normalizeError msg) }
        successCallback := none
        errorCallback := if opts.onError then some (normalizeError msg) else none
        outcome := .err msg }

/-- A full paginated `execute` call: the executor is invoked with
`(page, size)` and the finish transition is applied to the mid-flight
state produced by the start transition. -/
def pExecute {T : Type} (opts : UseApiOptions) (st : PaginatedApiState T)
    (call : Nat → Nat → POutcome T) (page : Nat) (size : Nat) (append : Bool) :
    PExecResult T :=
  pExecuteFinish opts (pExecuteStart st) append (call page size)

/-- Observable result of a `loadMore` call: the list of `(page, size)`
requests issued to the executor, the resulting state, and the settled
outcome when a request was issued (`none` when `loadMore` was a no-op). -/
structure LoadMoreResult (T : Type) where
  issued : List (Nat × Nat)
  state : PaginatedApiState T
  outcome : Option (POutcome T)
  deriving Repr, DecidableEq

/-- `loadMore` (`useApi.ts` lines 136–146): guarded by
`hasMore && !loading`; when the guard passes it delegates to `execute`
with `page+1`, the given size and `append=true`, otherwise it resolves
immediately without touching state or issuing a request. -/
def loadMore {T : Type} (opts : UseApiOptions) (st : PaginatedApiState T)
    (call : Nat → Nat → POutcome T) (size : Nat) : LoadMoreResult T :=
  if st.hasMore && !st.loading then
    let r := pExecute opts st call (st.page + 1) size true
    { issued := [(st.page + 1, size)], state := r.state, outcome := some r.outcome }
  else
    { issued := [], state := st, outcome := none }

/-- `reset` of `usePaginatedApi`: restores the full initial state. -/
def pReset {T : Type} (_st : PaginatedApiState T) : PaginatedApiState T :=
  PaginatedApiState.initial T

/-- State of `useFormApi`: `ApiState<any> & { validationError: string | null }`. -/
structure FormApiState (A : Type) where
  data : Option A
  loading : Bool
  error : Option String
  validationError : Option String
  deriving Repr, DecidableEq

/-- The initial state of `useFormApi`. -/
def FormApiState.initial (A : Type) : FormApiState A := ⟨none, false, none, none⟩

/-- `UseFormApiOptions<T>`: `UseApiOptions` plus an optional validator
returning a message (`string`) on invalid data and `null` otherwise. -/
structure UseFormApiOptions (F : Type) extends UseApiOptions where
  validate : Option (F → Option String)

/-- What a `submit` call delivers to its caller: `undefined` (a bare
`return`) when validation fails, the executor result on success, or the
re-raised original failure. -/
inductive SubmitOutcome (A : Type) where
  | returnedUndefined
  | ok (result : A)
  | err (message : Option String)
  deriving Repr, DecidableEq

/-- View of an executor outcome as a `submit` outcome. -/
def SubmitOutcome.ofOutcome {A : Type} : Outcome A → SubmitOutcome A
  | .ok r => .ok r
  | .err msg => .err msg

/-- Observable result of a completed `submit` call: the final state,
whether the executor was ever invoked, the recorded callback invocations,
and what was returned or re-raised. -/
structure SubmitResult (A : Type) where
  state : FormApiState A
  executorCalled : Bool
  successCallback : Option A
  errorCallback : Option String
  outcome : SubmitOutcome A
  deriving Repr, DecidableEq

/-- Step 2 of `submit` (`useApi.ts` lines 195–225), reached only after
validation passes: set `loading:true, error:null`, await the executor,
then overwrite the full state exactly as the plain tracker does (with
`validationError` also cleared). -/
def submitExecutor {F A : Type} (opts : UseFormApiOptions F) (st0 : FormApiState A)
    (o : Outcome A) : SubmitResult A :=
  let _mid := { st0 with loading := true, error := none }
  match o with
  | .ok r =>
      { state := ⟨some r, false, none, none⟩
        executorCalled := true
        successCallback := if opts.onSuccess then some r else none
        errorCallback := none
        outcome := .ok r }
  | .err msg =>
      { state := ⟨none, false, some (normalizeError msg), none⟩
        executorCalled := true
        successCallback := none
        errorCallback := if opts.onError then some (normalizeError msg) else none
        outcome := .err msg }

/-- `submit` (`useApi.ts` lines 181–226): first clear the prior
`validationError`; if a validator is configured, run it and test its
result with `if (validationError)` (`useApi.ts` line 189) — a JS
truthiness test, so only a non-null AND non-empty message takes the
validation-failure branch (record the message, return without invoking
the executor); a `null` or `""` result falls through to Step 2. -/
def submit {F A : Type} (opts : UseFormApiOptions F) (st : FormApiState A)
    (formData : F) (o : Outcome A) : SubmitResult A :=
  let st0 := { st with validationError := none }
  match opts.validate with
  | some v =>
      match v formData with
      | some ve =>
          if ve = "" then
            submitExecutor opts st0 o
          else
            { state := { st0 with validationError := some ve }
              executorCalled := false
              successCallback := none
              errorCallback := none
              outcome := .returnedUndefined }
      | none => submitExecutor opts st0 o
  | none => submitExecutor opts st0 o

/-- `reset` of `useFormApi`: clears all four fields. -/
def fReset {A : Type} (_st : FormApiState A) : FormApiState A := FormApiState.initial A

/-- The at-most-one-of-`{data, error}` exclusivity predicate on the
plain tracker state. -/
def ApiState.exclusive {T : Type} (st : ApiState T) : Prop :=
  st.data = none ∨ st.error = none

/-- Exclusivity on the form tracker state. -/
def FormApiState.exclusive {A : Type} (st : FormApiState A) : Prop :=
  st.data = none ∨ st.error = none

/-- Exclusivity on the paginated tracker state. -/
def PaginatedApiState.exclusive {T : Type} (st : PaginatedApiState T) : Prop :=
  st.data = none ∨ st.error = none

/-- The pagination invariant of the spec: `hasMore == (page < totalPages)`. -/
def PaginatedApiState.inv {T : Type} (st : PaginatedApiState T) : Prop :=
  st.hasMore = decide (st.page < st.totalPages)

/-- Whether validation lets `formData` through to Step 2: no validator
configured, or the configured validator returns a falsy value — `null` or
the empty string (the code tests `if (validationError)`). -/
def validationPasses {F : Type} (opts : UseFormApiOptions F) (formData : F) : Prop :=
  match opts.validate with
  | some v => v formData = none ∨ v formData = some ""
  | none => True

/-- A concrete two-page executor: page 1 resolves with
`{items:[10,11], total:4, page:1, pages:2}`, every later page with
`{items:[12,13], total:4, page:2, pages:2}`. -/
def twoPageCall : Nat → Nat → POutcome Nat := fun p _ =>
  if p = 1 then .ok ⟨none, some [10, 11], 4, 1, 2⟩
  else .ok ⟨none, some [12, 13], 4, 2, 2⟩

/-- C1: a resolving executor settles the Operation Tracker with
`data = result`, `loading = false`, `error = null`; the success callback
is invoked with the result exactly when one is configured; the result is
returned to the caller. -/
theorem execute_success_spec {T : Type} (opts : UseApiOptions) (st : ApiState T)
    (r : T) :
    (execute opts st (.ok r)).state = ⟨some r, false, none⟩ ∧
    (execute opts st (.ok r)).successCallback =
      (if opts.onSuccess then some r else none) ∧
    (execute opts st (.ok r)).errorCallback = none ∧
    (execute opts st (.ok r)).outcome = .ok r :=
  ⟨rfl, rfl, rfl, rfl⟩

/-- C2 counterexample: an executor failure that carries the message field
`""` does not surface `""` as the tracker error — the JS-truthiness test
`error.message || ...` replaces the (present but empty) message with the
generic fallback, contradicting the claim that a carried message field is
always used. -/
theorem execute_carried_empty_message_dropped :
    (execute ⟨false, false, none⟩ (ApiState.initial Nat) (.err (some ""))).state.error
        ≠ some "" ∧
    (execute ⟨false, false, none⟩ (ApiState.initial Nat) (.err (some ""))).state.error
        = some defaultErrorMessage := by
  refine ⟨?_, rfl⟩
  decide

/-- C2 (amended): on a failing executor the Operation Tracker settles with
`data = null`, `loading = false`, and `error` equal to the failure's
message field when that field is present and non-empty, and to the fixed
string `'An unexpected error occurred'` otherwise; the error callback is
invoked with exactly that string when configured; and the original failure
is re-raised to the caller. -/
theorem execute_failure_spec {T : Type} (opts : UseApiOptions) (st : ApiState T)
    (msg : Option String) :
    (execute opts st (.err msg)).state = ⟨none, false, some (normalizeError msg)⟩ ∧
    (execute opts st (.err msg)).errorCallback =
      (if opts.onError then some (normalizeError msg) else none) ∧
    (execute opts st (.err msg)).successCallback = none ∧
    (execute opts st (.err msg)).outcome = .err msg ∧
    normalizeError none = defaultErrorMessage ∧
    normalizeError (some "") = defaultErrorMessage ∧
    (∀ m : String, m ≠ "" → normalizeError (some m) = m) := by
  refine ⟨rfl, rfl, rfl, rfl, rfl, rfl, ?_⟩
  intro m hm
  simp [normalizeError, hm]

/-- Witness for `execute_failure_spec` at a failure carrying `"boom"`. -/
theorem execute_failure_spec_witness : normalizeError (some "boom") = "boom" :=
  (execute_failure_spec ⟨false, true, none⟩ (ApiState.initial Nat)
    (some "boom")).2.2.2.2.2.2 "boom" (by decide)

/-- C3: `loadMore` is a no-op (state untouched, no request issued) when
`hasMore` is false or `loading` is true; otherwise it delegates to
`execute` with `page+1`, the given size and `append=true`; and since the
mid-flight state of a pending call has `loading = true`, a second
`loadMore` issued while the first is pending sends nothing, so two calls
in immediate succession issue exactly one additional request. -/
theorem loadMore_guard_spec {T : Type} (opts : UseApiOptions)
    (st : PaginatedApiState T) (call : Nat → Nat → POutcome T) (size : Nat) :
    ((st.hasMore = false ∨ st.loading = true) →
        loadMore opts st call size = ⟨[], st, none⟩) ∧
    (st.hasMore = true → st.loading = false →
        (loadMore opts st call size).issued = [(st.page + 1, size)] ∧
        (loadMore opts st call size).state =
          (pExecute opts st call (st.page + 1) size true).state ∧
        (loadMore opts st call size).outcome =
          some (pExecute opts st call (st.page + 1) size true).outcome) ∧
    (loadMore opts (pExecuteStart st) call size).issued = [] ∧
    (st.hasMore = true → st.loading = false →
        (loadMore opts st call size).issued.length +
          (loadMore opts (pExecuteStart st) call size).issued.length = 1) := by
  refine ⟨?_, ?_, ?_, ?_⟩
  · rintro (h | h) <;> simp [loadMore, h]
  · intro h1 h2
    refine ⟨?_, ?_, ?_⟩ <;> simp [loadMore, h1, h2]
  · simp [loadMore, pExecuteStart]
  · intro h1 h2
    simp [loadMore, pExecuteStart, h1, h2]

/-- Witness for `loadMore_guard_spec`: from a concrete state with more
pages and no load in flight, a first `loadMore` plus a second one fired
against the mid-flight state issue exactly one request in total. -/
theorem loadMore_guard_spec_witness :
    (loadMore ⟨false, false, none⟩
        (⟨some [], false, none, 1, 2, 4, true⟩ : PaginatedApiState Nat)
        twoPageCall 20).issued.length +
      (loadMore ⟨false, false, none⟩
        (pExecuteStart (⟨some [], false, none, 1, 2, 4, true⟩ : PaginatedApiState Nat))
        twoPageCall 20).issued.length = 1 :=
  (loadMore_guard_spec ⟨false, false, none⟩
    (⟨some [], false, none, 1, 2, 4, true⟩ : PaginatedApiState Nat)
    twoPageCall 20).2.2.2 rfl rfl

/-- C4: on a successful paginated call, the new `data` is the previous
data with the result's items concatenated at the tail when `append=true`,
and the result's items alone when `append=false`; concretely, a first page
`{items:[10,11], total:4, page:1, pages:2}` followed by `loadMore`
resolving `{items:[12,13], total:4, page:2, pages:2}` ends with
`data = [10,11,12,13]` and `hasMore = false`. -/
theorem pExecute_append_spec {T : Type} (opts : UseApiOptions)
    (st : PaginatedApiState T) (call : Nat → Nat → POutcome T)
    (page size : Nat) (result : PageResult T)
    (hok : call page size = .ok result) :
    (pExecute opts st call page size true).state.data =
        some (st.data.getD [] ++ result.items) ∧
    (pExecute opts st call page size false).state.data = some result.items ∧
    (pExecute ⟨false, false, none⟩ (PaginatedApiState.initial Nat)
        twoPageCall 1 20 false).state.data = some [10, 11] ∧
    (pExecute ⟨false, false, none⟩ (PaginatedApiState.initial Nat)
        twoPageCall 1 20 false).state.hasMore = true ∧
    (loadMore ⟨false, false, none⟩
        (pExecute ⟨false, false, none⟩ (PaginatedApiState.initial Nat)
          twoPageCall 1 20 false).state
        twoPageCall 20).state.data = some [10, 11, 12, 13] ∧
    (loadMore ⟨false, false, none⟩
        (pExecute ⟨false, false, none⟩ (PaginatedApiState.initial Nat)
          twoPageCall 1 20 false).state
        twoPageCall 20).state.hasMore = false := by
  refine ⟨?_, ?_, by decide, by decide, by decide, by decide⟩ <;>
    simp [pExecute, pExecuteFinish, pExecuteStart, hok]

/-- Witness for `pExecute_append_spec` at the concrete two-page executor. -/
theorem pExecute_append_spec_witness :
    (pExecute ⟨false, false, none⟩ (PaginatedApiState.initial Nat)
        twoPageCall 1 20 true).state.data = some ([] ++ [10, 11]) :=
  (pExecute_append_spec ⟨false, false, none⟩ (PaginatedApiState.initial Nat)
    twoPageCall 1 20 ⟨none, some [10, 11], 4, 1, 2⟩ (by decide)).1

/-- C5 counterexample: a validator returning the non-null message `""` is
falsy under the code's `if (validationError)` test, so `submit` proceeds
to invoke the executor and records no validation error — contradicting
the claim that every non-null message blocks the request. -/
theorem submit_empty_validator_message_not_blocking :
    (submit (⟨⟨false, false, none⟩, some fun _ => some ""⟩ :
        UseFormApiOptions Nat)
      (FormApiState.initial Nat) 0 (.ok (1 : Nat))).executorCalled = true ∧
    (submit (⟨⟨false, false, none⟩, some fun _ => some ""⟩ :
        UseFormApiOptions Nat)
      (FormApiState.initial Nat) 0 (.ok (1 : Nat))).state.validationError
        = none := by
  refine ⟨?_, ?_⟩ <;> rfl

/-- C5 (amended): when the configured validator rejects `formData` with a
non-empty message `m`, `submit` sets `validationError = m` (any prior
validation error having been cleared first, hence overwritten), never
invokes the executor, leaves `data`, `loading` and `error` untouched — so
`loading` stays `false` throughout when it was `false` — and returns
`undefined`; a validator returning the empty string is treated as passing
(JS truthiness) and the executor is invoked. -/
theorem submit_validation_failure_spec {F A : Type} (opts : UseFormApiOptions F)
    (st : FormApiState A) (formData : F) (o : Outcome A)
    (v : F → Option String) (m : String)
    (hv : opts.validate = some v) (hm : v formData = some m) (hne : m ≠ "") :
    submit opts st formData o =
      ⟨⟨st.data, st.loading, st.error, some m⟩, false, none, none,
        .returnedUndefined⟩ := by
  simp [submit, hv, hm, hne]

/-- Witness for `submit_validation_failure_spec`: a validator rejecting
everything with `"bad input"` on the initial form state. -/
theorem submit_validation_failure_spec_witness :
    submit (⟨⟨false, false, none⟩, some fun _ => some "bad input"⟩ :
        UseFormApiOptions Nat)
      (FormApiState.initial Nat) 0 (.ok (1 : Nat)) =
      ⟨⟨none, false, none, some "bad input"⟩, false, none, none,
        .returnedUndefined⟩ :=
  submit_validation_failure_spec
    (⟨⟨false, false, none⟩, some fun _ => some "bad input"⟩ : UseFormApiOptions Nat)
    (FormApiState.initial Nat) 0 (.ok (1 : Nat)) (fun _ => some "bad input")
    "bad input" rfl rfl (by decide)

/-- C6 counterexample: in the Paginated tracker a failing call leaves the
(non-null) `data` array in place while setting `error`, so after that
completed call both `data ≠ null` and `error ≠ null` hold — already from
the initial state, whose `data` is the empty array, not `null`. -/
theorem paginated_failure_not_exclusive :
    (pExecute ⟨false, false, none⟩ (PaginatedApiState.initial Nat)
        (fun _ _ => .err (some "boom")) 1 20 false).state.data ≠ none ∧
    (pExecute ⟨false, false, none⟩ (PaginatedApiState.initial Nat)
        (fun _ _ => .err (some "boom")) 1 20 false).state.error ≠ none := by
  refine ⟨?_, ?_⟩ <;> decide

/-- C6 (amended): after a completed call, at most one of `{data ≠ null,
error ≠ null}` holds for the Operation Tracker (both outcomes) and for the
Form Tracker (on the executor path unconditionally, and on the
validation-failure path whenever it held before, since that path touches
neither field); for the Paginated tracker it holds after every successful
call, but a failing call keeps the non-null `data` array next to the new
`error`. -/
theorem exclusivity_spec {T F A : Type} (opts : UseApiOptions)
    (fopts : UseFormApiOptions F) (st : ApiState T) (stF : FormApiState A)
    (stP : PaginatedApiState T) (o : Outcome T) (oA : Outcome A) (fd : F)
    (call : Nat → Nat → POutcome T) (page size : Nat) (append : Bool)
    (result : PageResult T) (hok : call page size = .ok result) :
    (execute opts st o).state.exclusive ∧
    (stF.exclusive → (submit fopts stF fd oA).state.exclusive) ∧
    (pExecute opts stP call page size append).state.exclusive := by
  refine ⟨?_, ?_, ?_⟩
  · cases o with
    | ok r => exact Or.inr rfl
    | err msg => exact Or.inl rfl
  · intro hF
    cases hv : fopts.validate with
    | some v =>
        cases hm : v fd with
        | some ve =>
            by_cases hve : ve = ""
            · cases oA with
              | ok r =>
                  simp [submit, submitExecutor, hv, hm, hve,
                    FormApiState.exclusive]
              | err msg =>
                  simp [submit, submitExecutor, hv, hm, hve,
                    FormApiState.exclusive]
            · simpa [submit, hv, hm, hve, FormApiState.exclusive] using hF
        | none =>
            cases oA with
            | ok r =>
                simp [submit, submitExecutor, hv, hm, FormApiState.exclusive]
            | err msg =>
                simp [submit, submitExecutor, hv, hm, FormApiState.exclusive]
    | none =>
        cases oA with
        | ok r => simp [submit, submitExecutor, hv, FormApiState.exclusive]
        | err msg => simp [submit, submitExecutor, hv, FormApiState.exclusive]
  · simp only [pExecute, pExecuteFinish, hok]
    exact Or.inr rfl

/-- Witness for `exclusivity_spec` at concrete trackers and a successful
one-page executor. -/
theorem exclusivity_spec_witness :
    (submit (⟨⟨false, false, none⟩, none⟩ : UseFormApiOptions Nat)
      (FormApiState.initial Nat) 0 (.ok (1 : Nat))).state.exclusive :=
  (exclusivity_spec ⟨false, false, none⟩
    (⟨⟨false, false, none⟩, none⟩ : UseFormApiOptions Nat)
    (ApiState.initial Nat) (FormApiState.initial Nat)
    (PaginatedApiState.initial Nat) (.ok 1) (.ok 1) 0
    twoPageCall 1 20 false ⟨none, some [10, 11], 4, 1, 2⟩ (by decide)).2.1
    (Or.inl rfl)

/-- C7: `hasMore == (page < totalPages)` holds in the initial Paginated
state and is preserved by `execute` (success and failure), by `loadMore`,
and by `reset`. -/
theorem hasMore_inv_spec {T : Type} (opts : UseApiOptions)
    (st : PaginatedApiState T) (call : Nat → Nat → POutcome T)
    (page size : Nat) (append : Bool) :
    (PaginatedApiState.initial T).inv ∧
    (st.inv → (pExecute opts st call page size append).state.inv) ∧
    (st.inv → (loadMore opts st call size).state.inv) ∧
    (pReset st).inv := by
  have hpe : ∀ (p s : Nat) (ap : Bool),
      st.inv → (pExecute opts st call p s ap).state.inv := by
    intro p s ap h
    cases ho : call p s with
    | ok result => simp [pExecute, pExecuteFinish, ho, PaginatedApiState.inv]
    | err msg =>
        simpa [pExecute, pExecuteFinish, pExecuteStart, ho,
          PaginatedApiState.inv] using h
  refine ⟨rfl, hpe page size append, ?_, rfl⟩
  intro h
  by_cases hg : st.hasMore ∧ st.loading = false
  · have : (st.hasMore && !st.loading) = true := by
      simp [hg.1, hg.2]
    simpa [loadMore, this] using hpe (st.page + 1) size true h
  · have hgf : (st.hasMore && !st.loading) = false := by
      cases hh : st.hasMore with
      | false => simp
      | true =>
          cases hl : st.loading with
          | false => exact absurd ⟨hh, hl⟩ hg
          | true => simp [hl]
    simpa [loadMore, hgf] using h

/-- Witness for `hasMore_inv_spec` from the initial state. -/
theorem hasMore_inv_spec_witness :
    (loadMore ⟨false, false, none⟩ (PaginatedApiState.initial Nat)
      twoPageCall 20).state.inv :=
  (hasMore_inv_spec ⟨false, false, none⟩ (PaginatedApiState.initial Nat)
    twoPageCall 1 20 false).2.2.1 rfl

/-- C8: once validation passes, `submit` of the Form Tracker and `execute`
of the Operation Tracker (run with the same callback configuration)
produce, for every executor outcome, identical `data`/`loading`/`error`
components, identical callback invocations, and corresponding
returned/raised outcomes. -/
theorem submit_refines_execute {F A : Type} (fopts : UseFormApiOptions F)
    (stF : FormApiState A) (stO : ApiState A) (fd : F) (o : Outcome A)
    (hval : validationPasses fopts fd) :
    (submit fopts stF fd o).state.data =
      (execute fopts.toUseApiOptions stO o).state.data ∧
    (submit fopts stF fd o).state.loading =
      (execute fopts.toUseApiOptions stO o).state.loading ∧
    (submit fopts stF fd o).state.error =
      (execute fopts.toUseApiOptions stO o).state.error ∧
    (submit fopts stF fd o).successCallback =
      (execute fopts.toUseApiOptions stO o).successCallback ∧
    (submit fopts stF fd o).errorCallback =
      (execute fopts.toUseApiOptions stO o).errorCallback ∧
    (submit fopts stF fd o).outcome =
      SubmitOutcome.ofOutcome (execute fopts.toUseApiOptions stO o).outcome := by
  unfold validationPasses at hval
  cases hv : fopts.validate with
  | some v =>
      rw [hv] at hval
      have hval2 : v fd = none ∨ v fd = some "" := hval
      rcases hval2 with hval2 | hval2 <;>
        cases o <;>
          simp [submit, submitExecutor, execute, executeFinish, hv, hval2,
            SubmitOutcome.ofOutcome]
  | none =>
      cases o <;>
        simp [submit, submitExecutor, execute, executeFinish, hv,
          SubmitOutcome.ofOutcome]

/-- Witness for `submit_refines_execute` with no validator configured. -/
theorem submit_refines_execute_witness :
    (submit (⟨⟨true, true, none⟩, none⟩ : UseFormApiOptions Nat)
        (FormApiState.initial Nat) 0 (.err (some "boom"))).state.error =
      (execute (⟨true, true, none⟩ : UseApiOptions) (ApiState.initial Nat)
        (.err (some "boom"))).state.error :=
  (submit_refines_execute (⟨⟨true, true, none⟩, none⟩ : UseFormApiOptions Nat)
    (FormApiState.initial Nat) (ApiState.initial Nat) 0 (.err (some "boom"))
    trivial).2.2.1

/-- C9: `reset` on each tracker maps every prior state — mid-flight
`loading=true` states included — to exactly the defined initial state:
`{null, false, null}` for the Operation Tracker, `{[], false, null, 1, 1,
0, false}` for the Paginated tracker, and all four fields cleared for the
Form Tracker; the transition reads nothing from the prior state. -/
theorem reset_spec {T A : Type} (st : ApiState T) (stP : PaginatedApiState T)
    (stF : FormApiState A) :
    reset st = ApiState.initial T ∧
    reset st = ⟨none, false, none⟩ ∧
    pReset stP = PaginatedApiState.initial T ∧
    pReset stP = ⟨some [], false, none, 1, 1, 0, false⟩ ∧
    fReset stF = FormApiState.initial A ∧
    fReset stF = ⟨none, false, none, none⟩ :=
  ⟨rfl, rfl, rfl, rfl, rfl, rfl⟩

/-- C10: with `resetOnCall = false` the start transition preserves the
prior `data` and a success stores the fresh result, but a failing executor
still sets `data` to `null` — stale data never survives a failed call,
even in preserve-previous-data mode. -/
theorem preserveMode_failure_clears_data {T : Type} (opts : UseApiOptions)
    (st : ApiState T) (msg : Option String) (r : T)
    (h : opts.resetOnCall = some false) :
    (executeStart opts st).data = st.data ∧
    (execute opts st (.ok r)).state.data = some r ∧
    (execute opts st (.err msg)).state.data = none := by
  refine ⟨?_, rfl, rfl⟩
  simp [executeStart, h]

/-- Witness for `preserveMode_failure_clears_data`: a tracker holding
stale data loses it on a failing call despite `resetOnCall = false`. -/
theorem preserveMode_failure_clears_data_witness :
    (execute (⟨false, false, some false⟩ : UseApiOptions)
      (⟨some 5, false, none⟩ : ApiState Nat) (.err none)).state.data = none :=
  (preserveMode_failure_clears_data (⟨false, false, some false⟩ : UseApiOptions)
    (⟨some 5, false, none⟩ : ApiState Nat) none 7 rfl).2.2

end StyleAgent
